import Mathlib

/-!
Shallow embedding of `datadog_checks_base/datadog_checks/checks/prometheus/base_check.py`
(class `GenericPrometheusCheck`), together with a light model of the Python call
semantics and of the external collaborators that the file uses but whose code is
not part of this excerpt (the scraper mixin's `process` and
`create_mixin_configuration`, and the host monitoring API's submission
primitives).  Dictionaries are modelled as association lists over `String` keys.
-/

namespace PrometheusBase

/-- A decoded Prometheus label, with a name and a value (an element of
`metric.label` in the source). -/
structure Label where
  name : String
  value : String
deriving DecidableEq

/-- A decoded metric sample (`metric` in the source): only its repeated
`label` field is read by this layer. -/
structure Sample where
  label : List Label
deriving DecidableEq

/-- The scraper configuration record: the dictionary fields of it that
`base_check.py` reads.  `metrics_mapper` and `labels_mapper` are dictionaries
(modelled as association lists), `custom_tags` and `exclude_labels` are lists
of strings. -/
structure ScraperConfig where
  metrics_mapper : List (String × String)
  custom_tags : List String
  exclude_labels : List String
  labels_mapper : List (String × String)
deriving DecidableEq

/-- Python dictionary lookup on an association list: the value stored at key
`k`, or `none` when the key is absent (`d.get(k, None)` / `k in d`). -/
def dict_get {α : Type} (k : String) : List (String × α) → Option α
  | [] => none
  | (k₁, v) :: rest => if k₁ = k then some v else dict_get k rest

/-- An instance configuration record: a dictionary of string options.  Only
`prometheus_url` is read by this layer; the rest is consumed opaquely by the
external configuration builder. -/
abbrev Instance := List (String × String)

/-- Errors a call can raise: `CheckException` (with its message) from this
layer's own configuration checks, and `TypeError` from Python's runtime
(missing positional argument, subscripting `None`). -/
inductive PyErr where
  | typeError : PyErr
  | checkException : String → PyErr
deriving DecidableEq

/-- Modelled from the spec: the external mixin's configuration builder
`create_mixin_configuration(instance, default_instances, default_namespace)`
is an opaque collaborator producing a scraper configuration from an instance
record.  `default_instances` and `default_namespace` are fixed per coordinator,
so they are absorbed into the function. -/
abbrev Builder := Instance → ScraperConfig

/-- The mutable state of one `GenericPrometheusCheck` coordinator: its
`config_map`, a dictionary from endpoint URL to scraper configuration. -/
structure CoordState where
  config_map : List (String × ScraperConfig)
deriving DecidableEq

/-- Modelled from the spec: one invocation of the external mixin's shared
scrape-and-process pass `process(endpoint, configuration, ignore_unmapped)`,
recorded as an event with its arguments. -/
structure ProcessCall where
  endpoint : String
  config : ScraperConfig
  ignore_unmapped : Bool
deriving DecidableEq

/-- The outcome of one `check(instance)` run: the coordinator state after the
run, the list of invocations of the external `process` pass made during the
run, and whether the run returned normally or raised. -/
structure CheckResult where
  state : CoordState
  process_calls : List ProcessCall
  result : Except PyErr Unit

/-- Embeds `GenericPrometheusCheck.get_scraper_config(endpoint, instance)`:
if `endpoint` is already in `config_map` the stored configuration is returned
and nothing changes; otherwise the builder is invoked once, the result stored
under `endpoint`, and returned.  The third component counts how many times the
configuration builder was invoked during the call (0 or 1), so that theorems
can speak about it. -/
def get_scraper_config (builder : Builder) (st : CoordState) (endpoint : String)
    (inst : Instance) : ScraperConfig × CoordState × Nat :=
  match dict_get endpoint st.config_map with
  | some config => (config, st, 0)
  | none =>
    let config := builder inst
    (config, ⟨st.config_map ++ [(endpoint, config)]⟩, 1)

/-- Embeds `GenericPrometheusCheck.check(instance)`:
reads `prometheus_url` (raising `CheckException` when absent), resolves the
scraper configuration via `get_scraper_config`, raises `CheckException` when
its `metrics_mapper` is empty, and otherwise invokes the shared `process` pass
once with `ignore_unmapped=True` (recorded as a `ProcessCall`). -/
def check (builder : Builder) (st : CoordState) (inst : Instance) : CheckResult :=
  match dict_get "prometheus_url" inst with
  | none => ⟨st, [], .error (.checkException "Unable to find prometheus URL in config file.")⟩
  | some endpoint =>
    let r := get_scraper_config builder st endpoint inst
    let scraper_config := r.1
    let st₁ := r.2.1
    if scraper_config.metrics_mapper = [] then
      ⟨st₁, [],
        .error (.checkException
          ("You have to collect at least one metric from the endpoint: " ++ endpoint))⟩
    else
      ⟨st₁, [⟨endpoint, scraper_config, true⟩], .ok ()⟩

/-- The Python values that occur as positional arguments in the calls
modelled in this file. -/
inductive PyValue where
  | str : String → PyValue
  | inst : Instance → PyValue
deriving DecidableEq

/-- Python positional-argument binding: supplying `args` to a method that
requires exactly `n` positional parameters (besides `self`) raises
`TypeError` unless the count matches. -/
def bind_positional (n : Nat) (args : List PyValue) : Except PyErr (List PyValue) :=
  if args.length = n then .ok args else .error .typeError

/-- `get_scraper_config` requires two positional parameters besides `self`:
`endpoint` and `instance`. -/
def get_scraper_config_params : Nat := 2

/-- Embeds the set-up loop of `GenericPrometheusCheck.__init__`:
`for instance in instances: self.get_scraper_config(instance)` — each
iteration calls `get_scraper_config` with a single positional argument
(the instance record), bound against the method's two required positional
parameters. -/
def init_setup_loop (builder : Builder) : CoordState → List Instance → Except PyErr CoordState
  | st, [] => .ok st
  | st, inst :: rest =>
    match bind_positional get_scraper_config_params [PyValue.inst inst] with
    | .error e => .error e
    | .ok args =>
      match args with
      | [PyValue.str endpoint, PyValue.inst i] =>
        init_setup_loop builder (get_scraper_config builder st endpoint i).2.1 rest
      | _ => .error .typeError

/-- Embeds `GenericPrometheusCheck.__init__` (the part after the superclass
call): `config_map` is set to the empty dictionary and the set-up loop runs
over the configured instances. -/
def GenericPrometheusCheck_init (builder : Builder) (instances : List Instance) :
    Except PyErr CoordState :=
  init_setup_loop builder ⟨[]⟩ instances

/-- The type of the tag-finalization hook `_finalize_tags_to_submit`:
arguments are the computed tag list, the metric name, the value, the sample,
the configuration's custom tags, and the hostname. -/
abbrev FinalizeHook :=
  List String → String → Int → Sample → List String → Option String → List String

/-- Embeds the default `_finalize_tags_to_submit`: the identity on the tag
list. -/
def finalize_tags_to_submit (tags : List String) (metric_name : String) (val : Int)
    (metric : Sample) (custom_tags : List String) (hostname : Option String) :
    List String :=
  tags

/-- The tag derived from one label by the loop body of `_metric_tags`:
dropped when the label's name is in `exclude_labels`, otherwise
`name:value` with the name renamed through `labels_mapper` when present
there. -/
def label_tag (scraper_config : ScraperConfig) (l : Label) : Option String :=
  if l.name ∈ scraper_config.exclude_labels then none
  else
    let tag_name :=
      match dict_get l.name scraper_config.labels_mapper with
      | some mapped => mapped
      | none => l.name
    some (tag_name ++ ":" ++ l.value)

/-- Embeds `GenericPrometheusCheck._metric_tags`.  Its fourth positional
parameter is declared `scraper_config` and is subscripted with string keys, so
a call that leaves the submit methods' `custom_tags=None` default in place
raises `TypeError`; the value actually passed by the scrape pass is the full
scraper configuration (the source's parameter naming is inconsistent).  With a
configuration present, the tag list starts from `list(custom_tags)` and the
loop appends one tag per non-excluded label; the result goes through the
finalization hook. -/
def metric_tags (finalize : FinalizeHook) (metric_name : String) (val : Int)
    (metric : Sample) (scraper_config : Option ScraperConfig)
    (hostname : Option String) : Except PyErr (List String) :=
  match scraper_config with
  | none => .error .typeError
  | some cfg =>
    let custom_tags := cfg.custom_tags
    let tags := custom_tags ++ metric.label.filterMap (label_tag cfg)
    .ok (finalize tags metric_name val metric custom_tags hostname)

/-- Modelled from the spec: the host monitoring API's side-effecting
submission primitives `rate`, `gauge`, `monotonic_count`, recorded as emitted
calls with their arguments. -/
inductive ApiCall where
  | rate : String → Int → List String → Option String → ApiCall
  | gauge : String → Int → List String → Option String → ApiCall
  | monotonic_count : String → Int → List String → Option String → ApiCall
deriving DecidableEq

/-- Embeds `GenericPrometheusCheck._submit_rate`: computes the tag list via
`_metric_tags` (passing its fourth parameter along) and forwards one `rate`
call under the namespaced name `NAMESPACE ++ "." ++ metric_name`. -/
def submit_rate (NAMESPACE : String) (finalize : FinalizeHook) (metric_name : String)
    (val : Int) (metric : Sample) (custom_tags : Option ScraperConfig)
    (hostname : Option String) : Except PyErr (List ApiCall) :=
  match metric_tags finalize metric_name val metric custom_tags hostname with
  | .error e => .error e
  | .ok tags => .ok [ApiCall.rate (NAMESPACE ++ "." ++ metric_name) val tags hostname]

/-- Embeds `GenericPrometheusCheck._submit_gauge`: computes the tag list via
`_metric_tags` (passing its fourth parameter along) and forwards one `gauge`
call under the namespaced name `NAMESPACE ++ "." ++ metric_name`. -/
def submit_gauge (NAMESPACE : String) (finalize : FinalizeHook) (metric_name : String)
    (val : Int) (metric : Sample) (custom_tags : Option ScraperConfig)
    (hostname : Option String) : Except PyErr (List ApiCall) :=
  match metric_tags finalize metric_name val metric custom_tags hostname with
  | .error e => .error e
  | .ok tags => .ok [ApiCall.gauge (NAMESPACE ++ "." ++ metric_name) val tags hostname]

/-- Embeds `GenericPrometheusCheck._submit_monotonic_count`: computes the tag
list via `_metric_tags` (passing its fourth parameter along) and forwards one
`monotonic_count` call under the namespaced name
`NAMESPACE ++ "." ++ metric_name`. -/
def submit_monotonic_count (NAMESPACE : String) (finalize : FinalizeHook)
    (metric_name : String) (val : Int) (metric : Sample)
    (custom_tags : Option ScraperConfig) (hostname : Option String) :
    Except PyErr (List ApiCall) :=
  match metric_tags finalize metric_name val metric custom_tags hostname with
  | .error e => .error e
  | .ok tags =>
    .ok [ApiCall.monotonic_count (NAMESPACE ++ "." ++ metric_name) val tags hostname]

/-! Concrete fixtures used by witness theorems. -/

/-- A scraper configuration with an empty `metrics_mapper` (the C4 tag
fixture: custom tag `env:prod`, `job` excluded, `instance` renamed to
`host`). -/
def cfg_empty : ScraperConfig :=
  ⟨[], ["env:prod"], ["job"], [("instance", "host")]⟩

/-- A scraper configuration with one mapped metric. -/
def cfg_one : ScraperConfig :=
  ⟨[("bar", "bar")], ["env:prod"], ["job"], [("instance", "host")]⟩

/-- A builder always producing `cfg_empty`. -/
def builder_empty : Builder := fun _ => cfg_empty

/-- A builder always producing `cfg_one`. -/
def builder_one : Builder := fun _ => cfg_one

/-- A fresh coordinator state: empty configuration map. -/
def st_empty : CoordState := ⟨[]⟩

/-- An instance record with a `prometheus_url`. -/
def inst_url : Instance := [("prometheus_url", "http://foobar/endpoint")]

/-- The C4 sample, labels listed as instance then job. -/
def sample_ij : Sample := ⟨[⟨"instance", "a"⟩, ⟨"job", "x"⟩]⟩

/-- The C4 sample, labels listed as job then instance. -/
def sample_ji : Sample := ⟨[⟨"job", "x"⟩, ⟨"instance", "a"⟩]⟩

/-! Helper lemmas about dictionary lookup. -/

theorem dict_get_append_ne {α : Type} (k e : String) (c : α) (h : k ≠ e)
    (m : List (String × α)) : dict_get k (m ++ [(e, c)]) = dict_get k m := by
  induction m with
  | nil => simp [dict_get, Ne.symm h]
  | cons p rest ih =>
    cases p with
    | mk k₁ v => by_cases hk : k₁ = k <;> simp [dict_get, hk, ih]

theorem dict_get_append_self {α : Type} (e : String) (c : α)
    (m : List (String × α)) (h : dict_get e m = none) :
    dict_get e (m ++ [(e, c)]) = some c := by
  induction m with
  | nil => simp [dict_get]
  | cons p rest ih =>
    cases p with
    | mk k₁ v =>
      by_cases hk : k₁ = e
      · simp [dict_get, hk] at h
      · simp only [List.cons_append, dict_get, if_neg hk] at h ⊢
        exact ih h

theorem dict_get_none_not_mem {α : Type} (e : String) (m : List (String × α))
    (h : dict_get e m = none) : e ∉ m.map Prod.fst := by
  induction m with
  | nil => simp
  | cons p rest ih =>
    cases p with
    | mk k₁ v =>
      by_cases hk : k₁ = e
      · simp [dict_get, hk] at h
      · simp only [dict_get, if_neg hk] at h
        intro hmem
        rcases List.mem_cons.mp hmem with h₁ | h₂
        · exact hk h₁.symm
        · exact ih h h₂

/-! Claim theorems. -/

/-- C1: for every instance record with no `prometheus_url` field,
`check(instance)` raises `CheckException` with the missing-URL message, the
shared `process` pass is never invoked, and no scraper configuration is
created (the coordinator state is unchanged). -/
theorem check_missing_url_raises (builder : Builder) (st : CoordState)
    (inst : Instance) (h : dict_get "prometheus_url" inst = none) :
    check builder st inst =
      ⟨st, [], .error (.checkException "Unable to find prometheus URL in config file.")⟩ := by
  simp [check, h]

/-- Witness for C1 at an instance record with no `prometheus_url` key. -/
theorem check_missing_url_raises_witness :
    check builder_one st_empty [("namespace", "foobar")] =
      ⟨st_empty, [],
        .error (.checkException "Unable to find prometheus URL in config file.")⟩ :=
  check_missing_url_raises builder_one st_empty [("namespace", "foobar")] (by decide)

/-- C2: for every instance whose resolved scraper configuration has an empty
`metrics_mapper`, `check(instance)` raises `CheckException` with the
collect-at-least-one-metric message and the shared `process` pass is never
invoked. -/
theorem check_empty_mapper_raises (builder : Builder) (st : CoordState)
    (inst : Instance) (endpoint : String)
    (h₁ : dict_get "prometheus_url" inst = some endpoint)
    (h₂ : (get_scraper_config builder st endpoint inst).1.metrics_mapper = []) :
    check builder st inst =
      ⟨(get_scraper_config builder st endpoint inst).2.1, [],
        .error (.checkException
          ("You have to collect at least one metric from the endpoint: " ++ endpoint))⟩ := by
  simp [check, h₁, h₂]

/-- Witness for C2 at a fresh state and a builder producing a configuration
with no metrics. -/
theorem check_empty_mapper_raises_witness :
    check builder_empty st_empty inst_url =
      ⟨(get_scraper_config builder_empty st_empty "http://foobar/endpoint" inst_url).2.1, [],
        .error (.checkException
          ("You have to collect at least one metric from the endpoint: " ++
            "http://foobar/endpoint"))⟩ :=
  check_empty_mapper_raises builder_empty st_empty inst_url "http://foobar/endpoint"
    (by decide) (by decide)

/-- C6: whenever `check(instance)` succeeds (a `prometheus_url` is present and
the resolved configuration's `metrics_mapper` is non-empty), it invokes the
shared scrape-and-process pass exactly once, for that endpoint and that
configuration, with `ignore_unmapped = true`. -/
theorem check_success_process_once (builder : Builder) (st : CoordState)
    (inst : Instance) (endpoint : String)
    (h₁ : dict_get "prometheus_url" inst = some endpoint)
    (h₂ : (get_scraper_config builder st endpoint inst).1.metrics_mapper ≠ []) :
    check builder st inst =
      ⟨(get_scraper_config builder st endpoint inst).2.1,
        [⟨endpoint, (get_scraper_config builder st endpoint inst).1, true⟩],
        .ok ()⟩ := by
  simp [check, h₁, h₂]

/-- Witness for C6 at a fresh state and a builder producing a configuration
with one mapped metric. -/
theorem check_success_process_once_witness :
    check builder_one st_empty inst_url =
      ⟨(get_scraper_config builder_one st_empty "http://foobar/endpoint" inst_url).2.1,
        [⟨"http://foobar/endpoint",
          (get_scraper_config builder_one st_empty "http://foobar/endpoint" inst_url).1,
          true⟩],
        .ok ()⟩ :=
  check_success_process_once builder_one st_empty inst_url "http://foobar/endpoint"
    (by decide) (by decide)

/-- C9: the empty-metric-mapping failure of `check(instance)` is not atomic
with respect to the configuration cache: when the endpoint was not previously
in the map, the newly built configuration is stored in the map before the
`CheckException` is raised, so the coordinator's state is mutated even though
the check run fails. -/
theorem check_empty_mapper_still_stores (builder : Builder) (st : CoordState)
    (inst : Instance) (endpoint : String)
    (h₁ : dict_get endpoint st.config_map = none)
    (h₂ : dict_get "prometheus_url" inst = some endpoint)
    (h₃ : (builder inst).metrics_mapper = []) :
    check builder st inst =
      ⟨⟨st.config_map ++ [(endpoint, builder inst)]⟩, [],
        .error (.checkException
          ("You have to collect at least one metric from the endpoint: " ++ endpoint))⟩ ∧
    dict_get endpoint (check builder st inst).state.config_map = some (builder inst) := by
  have hrun : check builder st inst =
      ⟨⟨st.config_map ++ [(endpoint, builder inst)]⟩, [],
        .error (.checkException
          ("You have to collect at least one metric from the endpoint: " ++ endpoint))⟩ := by
    simp [check, h₂, get_scraper_config, h₁, h₃]
  exact ⟨hrun, by rw [hrun]; exact dict_get_append_self endpoint (builder inst) st.config_map h₁⟩

/-- Witness for C9 at a fresh state: the failing run stores the freshly built
configuration under the endpoint. -/
theorem check_empty_mapper_still_stores_witness :
    check builder_empty st_empty inst_url =
      ⟨⟨st_empty.config_map ++ [("http://foobar/endpoint", builder_empty inst_url)]⟩, [],
        .error (.checkException
          ("You have to collect at least one metric from the endpoint: " ++
            "http://foobar/endpoint"))⟩ ∧
    dict_get "http://foobar/endpoint"
        (check builder_empty st_empty inst_url).state.config_map =
      some (builder_empty inst_url) :=
  check_empty_mapper_still_stores builder_empty st_empty inst_url "http://foobar/endpoint"
    (by decide) (by decide) (by decide)

/-- C10: for every non-empty instances list, the constructor's set-up loop
fails with a `TypeError` on the first iteration (its call supplies one
positional argument where `get_scraper_config` requires two), so construction
fails and the configuration map is never pre-populated; with an empty list the
constructor returns the empty map. -/
theorem init_nonempty_type_error (builder : Builder) (instances : List Instance)
    (h : instances ≠ []) :
    GenericPrometheusCheck_init builder instances = .error .typeError ∧
    GenericPrometheusCheck_init builder [] = .ok ⟨[]⟩ := by
  constructor
  · match instances, h with
    | inst :: rest, _ =>
      simp [GenericPrometheusCheck_init, init_setup_loop, bind_positional,
        get_scraper_config_params]
  · rfl

/-- Witness for C10 at a one-element instances list. -/
theorem init_nonempty_type_error_witness :
    GenericPrometheusCheck_init builder_one [inst_url] = .error .typeError ∧
    GenericPrometheusCheck_init builder_one [] = .ok ⟨[]⟩ :=
  init_nonempty_type_error builder_one [inst_url] (by decide)

/-- C3: `get_scraper_config` is get-or-create over the per-coordinator map
keyed by exact endpoint string: a cached endpoint is returned without invoking
the builder; a fresh endpoint invokes the builder once and stores the result;
a second call with the same endpoint returns the identical stored
configuration without invoking the builder and without changing the state;
existing entries are never removed or replaced; and the map keeps at most one
entry per distinct endpoint. -/
theorem get_scraper_config_get_or_create (builder : Builder) (st : CoordState)
    (endpoint : String) (inst inst₂ : Instance)
    (hnd : (st.config_map.map Prod.fst).Nodup) :
    ((get_scraper_config builder
        (get_scraper_config builder st endpoint inst).2.1 endpoint inst₂).1 =
      (get_scraper_config builder st endpoint inst).1 ∧
     (get_scraper_config builder
        (get_scraper_config builder st endpoint inst).2.1 endpoint inst₂).2.1 =
      (get_scraper_config builder st endpoint inst).2.1 ∧
     (get_scraper_config builder
        (get_scraper_config builder st endpoint inst).2.1 endpoint inst₂).2.2 = 0) ∧
    (∀ c, dict_get endpoint st.config_map = some c →
      get_scraper_config builder st endpoint inst = (c, st, 0)) ∧
    (dict_get endpoint st.config_map = none →
      get_scraper_config builder st endpoint inst =
        (builder inst, ⟨st.config_map ++ [(endpoint, builder inst)]⟩, 1)) ∧
    dict_get endpoint (get_scraper_config builder st endpoint inst).2.1.config_map =
      some (get_scraper_config builder st endpoint inst).1 ∧
    (∀ k c, (k, c) ∈ st.config_map →
      (k, c) ∈ (get_scraper_config builder st endpoint inst).2.1.config_map) ∧
    (∀ k, k ≠ endpoint →
      dict_get k (get_scraper_config builder st endpoint inst).2.1.config_map =
        dict_get k st.config_map) ∧
    ((get_scraper_config builder st endpoint inst).2.1.config_map.map Prod.fst).Nodup := by
  cases hget : dict_get endpoint st.config_map with
  | some c =>
    have h₁ : get_scraper_config builder st endpoint inst = (c, st, 0) := by
      simp [get_scraper_config, hget]
    refine ⟨?_, ?_, ?_, ?_, ?_, ?_, ?_⟩
    · rw [h₁]; simp [get_scraper_config, hget]
    · intro c₂ hc₂; rw [h₁, Option.some_inj.mp hc₂]
    · intro hnone; exact absurd hnone (by simp)
    · rw [h₁]; exact hget
    · intro k c₂ hmem; rw [h₁]; exact hmem
    · intro k _; rw [h₁]
    · rw [h₁]; exact hnd
  | none =>
    have h₁ : get_scraper_config builder st endpoint inst =
        (builder inst, ⟨st.config_map ++ [(endpoint, builder inst)]⟩, 1) := by
      simp [get_scraper_config, hget]
    have hstored : dict_get endpoint (st.config_map ++ [(endpoint, builder inst)]) =
        some (builder inst) :=
      dict_get_append_self endpoint (builder inst) st.config_map hget
    refine ⟨?_, ?_, ?_, ?_, ?_, ?_, ?_⟩
    · rw [h₁]; simp [get_scraper_config, hstored]
    · intro c₂ hc₂; exact absurd hc₂ (by simp)
    · intro _; exact h₁
    · rw [h₁]; exact hstored
    · intro k c₂ hmem; rw [h₁]; exact List.mem_append_left _ hmem
    · intro k hk; rw [h₁]
      exact dict_get_append_ne k endpoint (builder inst) hk st.config_map
    · rw [h₁]
      have hni : endpoint ∉ st.config_map.map Prod.fst :=
        dict_get_none_not_mem endpoint st.config_map hget
      simp only [List.map_append, List.map_cons, List.map_nil]
      rw [List.nodup_append]
      exact ⟨hnd, List.nodup_singleton endpoint, by simpa [List.disjoint_singleton] using hni⟩

/-- Witness for C3 at a fresh state, a concrete endpoint, and two distinct
instance records. -/
theorem get_scraper_config_get_or_create_witness :
    ((get_scraper_config builder_one
        (get_scraper_config builder_one st_empty "http://foobar/endpoint" inst_url).2.1
        "http://foobar/endpoint" []).1 =
      (get_scraper_config builder_one st_empty "http://foobar/endpoint" inst_url).1 ∧
     (get_scraper_config builder_one
        (get_scraper_config builder_one st_empty "http://foobar/endpoint" inst_url).2.1
        "http://foobar/endpoint" []).2.1 =
      (get_scraper_config builder_one st_empty "http://foobar/endpoint" inst_url).2.1 ∧
     (get_scraper_config builder_one
        (get_scraper_config builder_one st_empty "http://foobar/endpoint" inst_url).2.1
        "http://foobar/endpoint" []).2.2 = 0) ∧
    (∀ c, dict_get "http://foobar/endpoint" st_empty.config_map = some c →
      get_scraper_config builder_one st_empty "http://foobar/endpoint" inst_url =
        (c, st_empty, 0)) ∧
    (dict_get "http://foobar/endpoint" st_empty.config_map = none →
      get_scraper_config builder_one st_empty "http://foobar/endpoint" inst_url =
        (builder_one inst_url,
          ⟨st_empty.config_map ++ [("http://foobar/endpoint", builder_one inst_url)]⟩, 1)) ∧
    dict_get "http://foobar/endpoint"
        (get_scraper_config builder_one st_empty "http://foobar/endpoint"
          inst_url).2.1.config_map =
      some (get_scraper_config builder_one st_empty "http://foobar/endpoint" inst_url).1 ∧
    (∀ k c, (k, c) ∈ st_empty.config_map →
      (k, c) ∈ (get_scraper_config builder_one st_empty "http://foobar/endpoint"
        inst_url).2.1.config_map) ∧
    (∀ k, k ≠ "http://foobar/endpoint" →
      dict_get k (get_scraper_config builder_one st_empty "http://foobar/endpoint"
          inst_url).2.1.config_map =
        dict_get k st_empty.config_map) ∧
    ((get_scraper_config builder_one st_empty "http://foobar/endpoint"
        inst_url).2.1.config_map.map Prod.fst).Nodup :=
  get_scraper_config_get_or_create builder_one st_empty "http://foobar/endpoint"
    inst_url [] (by decide)

/-- C4: for a sample with labels `instance: a`, `job: x` (in either listing
order) and a scraper configuration with `exclude_labels = [job]`,
`labels_mapper = instance ↦ host`, `custom_tags = [env:prod]` (any
`metrics_mapper`), the default `_metric_tags` computes exactly the tags
`env:prod` and `host:a` — as a set, equal to that two-element set — with no
tag derived from the `job` label. -/
theorem metric_tags_example (mm : List (String × String)) (metric_name : String)
    (val : Int) (hostname : Option String) :
    metric_tags finalize_tags_to_submit metric_name val sample_ij
        (some ⟨mm, ["env:prod"], ["job"], [("instance", "host")]⟩) hostname =
      .ok ["env:prod", "host:a"] ∧
    metric_tags finalize_tags_to_submit metric_name val sample_ji
        (some ⟨mm, ["env:prod"], ["job"], [("instance", "host")]⟩) hostname =
      .ok ["env:prod", "host:a"] ∧
    (["env:prod", "host:a"] : List String).toFinset =
      ({"env:prod", "host:a"} : Finset String) ∧
    "job:x" ∉ (["env:prod", "host:a"] : List String) :=
  ⟨rfl, rfl, rfl, by decide⟩

/-- C5: with the scraper configuration passed along (as the scrape pass does),
each of `_submit_rate`, `_submit_gauge`, `_submit_monotonic_count` forwards
exactly one call to the corresponding host-API primitive under the namespaced
name `<namespace>.<metric_name>`, with the value and the tag list computed by
`_metric_tags` from the configuration's `custom_tags`, `exclude_labels` and
`labels_mapper`; in particular `_submit_gauge` for metric `up`, value 1 and
namespace `foo` emits exactly one gauge named `foo.up` with value 1. -/
theorem submit_forwards_one_namespaced_call (NAMESPACE metric_name : String)
    (val : Int) (metric : Sample) (cfg : ScraperConfig) (hostname : Option String) :
    submit_gauge NAMESPACE finalize_tags_to_submit metric_name val metric
        (some cfg) hostname =
      .ok [ApiCall.gauge (NAMESPACE ++ "." ++ metric_name) val
        (cfg.custom_tags ++ metric.label.filterMap (label_tag cfg)) hostname] ∧
    submit_rate NAMESPACE finalize_tags_to_submit metric_name val metric
        (some cfg) hostname =
      .ok [ApiCall.rate (NAMESPACE ++ "." ++ metric_name) val
        (cfg.custom_tags ++ metric.label.filterMap (label_tag cfg)) hostname] ∧
    submit_monotonic_count NAMESPACE finalize_tags_to_submit metric_name val metric
        (some cfg) hostname =
      .ok [ApiCall.monotonic_count (NAMESPACE ++ "." ++ metric_name) val
        (cfg.custom_tags ++ metric.label.filterMap (label_tag cfg)) hostname] ∧
    submit_gauge "foo" finalize_tags_to_submit "up" 1 metric (some cfg) hostname =
      .ok [ApiCall.gauge "foo.up" 1
        (cfg.custom_tags ++ metric.label.filterMap (label_tag cfg)) hostname] :=
  ⟨rfl, rfl, rfl, rfl⟩

/-- C7: the default `_finalize_tags_to_submit` is the identity on the tag
list, for every combination of the other arguments. -/
theorem finalize_tags_default_identity (tags : List String) (metric_name : String)
    (val : Int) (metric : Sample) (custom_tags : List String)
    (hostname : Option String) :
    finalize_tags_to_submit tags metric_name val metric custom_tags hostname = tags :=
  rfl

/-- C8: every submission path (rate, gauge, monotonic count) routes its tag
list through the `_finalize_tags_to_submit` hook: overriding the hook to
append a fixed tag `t` makes every such submission carry `t` in addition to
the tags computed from the configuration's custom tags and the sample's
labels. -/
theorem finalize_hook_reaches_all_submissions (t NAMESPACE metric_name : String)
    (val : Int) (metric : Sample) (cfg : ScraperConfig) (hostname : Option String) :
    submit_rate NAMESPACE (fun tags _ _ _ _ _ => tags ++ [t]) metric_name val metric
        (some cfg) hostname =
      .ok [ApiCall.rate (NAMESPACE ++ "." ++ metric_name) val
        ((cfg.custom_tags ++ metric.label.filterMap (label_tag cfg)) ++ [t]) hostname] ∧
    submit_gauge NAMESPACE (fun tags _ _ _ _ _ => tags ++ [t]) metric_name val metric
        (some cfg) hostname =
      .ok [ApiCall.gauge (NAMESPACE ++ "." ++ metric_name) val
        ((cfg.custom_tags ++ metric.label.filterMap (label_tag cfg)) ++ [t]) hostname] ∧
    submit_monotonic_count NAMESPACE (fun tags _ _ _ _ _ => tags ++ [t]) metric_name
        val metric (some cfg) hostname =
      .ok [ApiCall.monotonic_count (NAMESPACE ++ "." ++ metric_name) val
        ((cfg.custom_tags ++ metric.label.filterMap (label_tag cfg)) ++ [t]) hostname] ∧
    t ∈ (cfg.custom_tags ++ metric.label.filterMap (label_tag cfg)) ++ [t] :=
  ⟨rfl, rfl, rfl, List.mem_append_right _ (List.mem_singleton.mpr rfl)⟩

end PrometheusBase
